import Mathlib

/-!
Verification of the pingtunnel manager (src/Source/Pingtunnel.py).

The program under study is the runner script embedded as RUNNER_TEMPLATE in
src/Source/Pingtunnel.py.  Its core is the supervision loop `monitor_loop`
(template lines 161-180), the pure command builder `build_args` (126-143),
the resource limiter `apply_systemd_mem` (145-159), and the lifecycle
front-end `start` (200-213) and `stop` (215-236).

The embedding below translates those functions.  File-system and process
effects are made explicit: the outcome of each spawn/wait is an input value
(`SpawnResult`), the possible file-system failures of the limiter are an
input record (`FsEnv`), and log lines become structured `LogEntry` values.
Python exceptions are modelled with `Except`; a try/except block becomes a
match on the guarded computation.  `load_conf` and `find_bin` are abstracted
by passing their successful results (a `Conf` and a binary path) directly:
their fatal failures happen before the loop and are outside these claims.
-/

/-- Model of the JSON configuration record read by `load_conf` (template
line 106-109).  The fields are exactly the keys that `build_args` and
`apply_systemd_mem` read with `conf.get`: `type` (128), `key` (129),
`tcp` (130), `l_port` (134), `server` (139), `memory_mb` (146) and
`binary` (112, used only by the abstracted `find_bin`).  `none` models an
absent key. -/
structure Conf where
  type : Option String
  key : Option String
  tcp : Option Int
  l_port : Option Int
  server : Option String
  memory_mb : Option Int
  binary : Option String
deriving DecidableEq, Repr

/-- Model of Python `str.lower()` on one character, as used on the ASCII
configuration strings: an upper-case basic latin letter is shifted down by
32, everything else is unchanged (this is `Char.toLower` restated with
structural recursion available to the kernel). -/
def char_lower (c : Char) : Char :=
  if 65 ≤ c.toNat ∧ c.toNat ≤ 90 then Char.ofNat (c.toNat + 32) else c

/-- Model of Python `str.lower()` (ASCII), mapping `char_lower` over the
characters. -/
def str_lower (s : String) : String := ⟨s.data.map char_lower⟩

/-- The client-mode `-type`/`-l` prefix of the argument vector, template
lines 134-138: when `l_port` is present and truthy (a Python int is falsy
exactly when it is 0) the `-l :port` pair is appended after the mode
marker, otherwise only the mode marker is emitted. -/
def lport_args (o : Option Int) : List String :=
  match o with
  | some lp => if lp = 0 then ["-type", "client"] else ["-type", "client", "-l", ":" ++ toString lp]
  | none => ["-type", "client"]

/-- The optional `-s endpoint` pair, template lines 139-141: emitted only
when `server` is present and truthy (a Python string is falsy exactly when
it is empty). -/
def server_args (o : Option String) : List String :=
  match o with
  | some s => if s = "" then [] else ["-s", s]
  | none => []

/-- Translation of `build_args` (template lines 126-143).  The mode string
defaults to "server" and is lowercased; the `tcp` key is read into a local
that the original never uses (kept here as a discarded let, exactly as in
the source); the server branch emits a fixed flag list, the client branch
composes the `-type`/`-l` prefix, the optional `-s` pair and the common
tail. -/
def build_args (conf : Conf) (binpath : String) : List String :=
  let t := str_lower (conf.type.getD "server")
  let key := conf.key.getD ""
  let _tcp := toString (conf.tcp.getD 1)
  if t = "server" then
    [binpath, "-type", "server", "-tcp", "1", "-key", key, "-noprint", "1", "-nolog", "1"]
  else
    binpath :: (lport_args conf.l_port ++ (server_args conf.server ++
      ["-tcp", "1", "-key", key, "-noprint", "1", "-nolog", "1"]))

lemma build_args_server_eq (conf : Conf) (bin : String)
    (h : str_lower (conf.type.getD "server") = "server") :
    build_args conf bin =
      [bin, "-type", "server", "-tcp", "1", "-key", conf.key.getD "",
       "-noprint", "1", "-nolog", "1"] := by
  simp only [build_args]
  rw [if_pos h]

lemma build_args_client_eq (conf : Conf) (bin : String)
    (h : ¬ str_lower (conf.type.getD "server") = "server") :
    build_args conf bin =
      bin :: (lport_args conf.l_port ++ (server_args conf.server ++
        ["-tcp", "1", "-key", conf.key.getD "", "-noprint", "1", "-nolog", "1"])) := by
  simp only [build_args]
  rw [if_neg h]

/-- Structured form of the log lines written by `monitor_loop` (template
lines 161-180): the pre-loop "monitor loop starting" line (166), the
per-iteration "starting: ..." line carrying the command (168), the
"child pid=..." line (172), the two exit classifications (174-177), the
"launch error: ..." line of the except handler (179), and a marker for
the fixed `time.sleep(3)` backoff (180). -/
inductive LogEntry where
  | monitorStarting
  | starting (args : List String)
  | childPid (pid : Nat)
  | killedBySignal (sig : Int)
  | exited (code : Int)
  | launchError (msg : String)
  | sleep (secs : Nat)
deriving DecidableEq, Repr

/-- Outcome of one spawn/wait attempt, an input to the loop model: either
`Popen` succeeded and `p.wait()` eventually returned `rc` (negative for a
terminating signal, as in CPython), or the spawn raised with a message. -/
inductive SpawnResult where
  | spawned (pid : Nat) (rc : Int)
  | spawnError (msg : String)
deriving DecidableEq, Repr

/-- Translation of the classification at template lines 174-177:
`if rc < 0: log killed by signal -rc else: log exited rc`. -/
def classifyExit (rc : Int) : LogEntry :=
  if rc < 0 then LogEntry.killedBySignal (-rc) else LogEntry.exited rc

/-- The log lines produced inside the try block, after the except handler
has run (template lines 169-179): a successful spawn logs the pid and the
exit classification; a spawn exception is caught by `except Exception` and
logs a launch error. -/
def handled_logs (r : SpawnResult) : List LogEntry :=
  match r with
  | SpawnResult.spawned pid rc => [LogEntry.childPid pid, classifyExit rc]
  | SpawnResult.spawnError msg => [LogEntry.launchError msg]

/-- All log lines of one loop iteration (template lines 168-180): the
"starting" line, the handled try-block lines, then the backoff sleep. -/
def iter_logs (args : List String) (r : SpawnResult) : List LogEntry :=
  LogEntry.starting args :: (handled_logs r ++ [LogEntry.sleep 3])

/-- One iteration of the `while True` body (template lines 167-180) with
the exception flow made explicit: the spawn/wait region may raise
(`Except.error`), the `except Exception` handler at 178-179 converts any
such error into a launch-error log line, and the iteration always
completes with the sleep.  An `Except.error` result of this function would
mean an exception escaping the iteration and killing the loop. -/
def loop_body (args : List String) (r : SpawnResult) : Except String (List LogEntry) :=
  let attempt : Except String (List LogEntry) :=
    match r with
    | SpawnResult.spawned pid rc => Except.ok [LogEntry.childPid pid, classifyExit rc]
    | SpawnResult.spawnError msg => Except.error msg
  match attempt with
  | Except.ok ls => Except.ok (LogEntry.starting args :: (ls ++ [LogEntry.sleep 3]))
  | Except.error msg =>
      Except.ok (LogEntry.starting args :: ([LogEntry.launchError msg] ++ [LogEntry.sleep 3]))

/-- State of a running supervisor: the command vector computed before the
loop (template line 165 — it is never recomputed inside the loop), the log
so far, and whether an uncaught exception has killed the loop. -/
structure MonitorState where
  args : List String
  logs : List LogEntry
  crashed : Bool
deriving DecidableEq, Repr

/-- File-system outcomes relevant to `apply_systemd_mem` (template lines
145-159): whether `dropin.mkdir` raises, whether `memfile.write_text`
raises, whether the removal `memfile.unlink` raises, and whether the
drop-in file currently exists.  The `systemctl daemon-reload` subprocess
call (152) does not raise on a nonzero exit status and is not modelled as
a failure source. -/
structure FsEnv where
  mkdirFails : Bool
  writeFails : Bool
  unlinkFails : Bool
  memfileExists : Bool
deriving DecidableEq, Repr

/-- Result classification for `apply_systemd_mem`. -/
inductive MemLimitOutcome where
  | applied
  | removed
  | removeFailedIgnored
  | nothingToRemove
deriving DecidableEq, Repr

/-- Translation of `apply_systemd_mem` (template lines 145-159).  For
`m > 0` the mkdir/write calls are NOT guarded by any try/except in the
source, so their failures propagate as exceptions (`Except.error`); for
`m <= 0` the removal is wrapped in try/except pass (154-159), so its
failure is swallowed.  `int(conf.get("memory_mb", 0) or 0)` is the
`getD 0` read (a stored 0 is falsy and `0 or 0` is again 0). -/
def apply_systemd_mem (conf : Conf) (env : FsEnv) : Except String MemLimitOutcome :=
  let m := conf.memory_mb.getD 0
  if 0 < m then
    if env.mkdirFails then Except.error "mkdir failed"
    else if env.writeFails then Except.error "write failed"
    else Except.ok MemLimitOutcome.applied
  else
    if env.memfileExists then
      if env.unlinkFails then Except.ok MemLimitOutcome.removeFailedIgnored
      else Except.ok MemLimitOutcome.removed
    else Except.ok MemLimitOutcome.nothingToRemove

/-- The pre-loop segment of `monitor_loop` (template lines 161-166):
configuration is loaded and the binary resolved (both abstracted as the
`conf` and `bin` arguments, their fatal failures being SystemExit before
the loop), the memory limit is applied ONCE — an exception here aborts the
whole supervisor — and the command vector is built ONCE. -/
def monitor_init (conf : Conf) (env : FsEnv) (bin : String) : Except String MonitorState :=
  match apply_systemd_mem conf env with
  | Except.error e => Except.error e
  | Except.ok _ =>
      Except.ok { args := build_args conf bin, logs := [LogEntry.monitorStarting], crashed := false }

/-- One `while True` iteration as a state transition (template lines
167-180).  The first component of `ev` is the content of the configuration
store during this cycle: the source never reads it inside the loop (the
`conf` of line 162 is loaded once, before the loop), which is why it is
ignored here.  The second component is the outcome of this spawn/wait. -/
def monitor_step (s : MonitorState) (ev : Conf × SpawnResult) : MonitorState :=
  if s.crashed then s
  else
    match loop_body s.args ev.2 with
    | Except.ok ls => { s with logs := s.logs ++ ls }
    | Except.error _ => { s with crashed := true }

/-- Run of the loop over a finite list of iteration inputs. -/
def monitor_run_from (s : MonitorState) (events : List (Conf × SpawnResult)) : MonitorState :=
  match events with
  | [] => s
  | e :: rest => monitor_run_from (monitor_step s e) rest

/-- Full `monitor_loop` run (template lines 161-180): the pre-loop segment
followed by the iterations.  An `Except.error` result means the supervisor
died before entering the loop. -/
def monitor_run (conf : Conf) (env : FsEnv) (bin : String)
    (events : List (Conf × SpawnResult)) : Except String MonitorState :=
  match monitor_init conf env bin with
  | Except.error e => Except.error e
  | Except.ok s => Except.ok (monitor_run_from s events)

/-- The command vectors named by the "starting: ..." log lines, in order:
one entry per launch attempt the loop has made. -/
def starting_args (logs : List LogEntry) : List (List String) :=
  logs.filterMap fun e =>
    match e with
    | LogEntry.starting a => some a
    | _ => none

/-- State visible to the lifecycle front-end when not init-managed: the
contents of /run/pingtunnel.pid (`none` when the file is absent) and the
pids of the running supervisor processes (liveness = membership). -/
structure FrontEndState where
  pidFile : Option Nat
  supervisors : List Nat
deriving DecidableEq, Repr

/-- Translation of the non-systemd branch of `start` (template lines
205-213): `subprocess.Popen` unconditionally spawns a fresh detached
supervisor with a new pid — there is no check of the PID record before the
spawn — and then the pid is written to the PID record inside try/except
pass (`writeFails` models that write raising). -/
def start (s : FrontEndState) (newPid : Nat) (writeFails : Bool) : FrontEndState :=
  { pidFile := if writeFails then s.pidFile else some newPid,
    supervisors := newPid :: s.supervisors }

/-- Outcome classification of `stop`, matching the three log lines of the
non-systemd branch (template lines 220-236). -/
inductive StopOutcome where
  | stopped
  | stopError
  | pkillFallback
deriving DecidableEq, Repr

/-- Result of a `stop` invocation: the PID record afterwards, the
`os.kill` calls attempted (pid, signal number: 15 = SIGTERM, 0 = liveness
probe, 9 = SIGKILL), and which log line was produced. -/
structure StopResult where
  pidFileAfter : Option Nat
  killCalls : List (Nat × Nat)
  outcome : StopOutcome
deriving DecidableEq, Repr

/-- Translation of the non-systemd branch of `stop` (template lines
220-236).  With a PID record present, the whole body is one try/except:
`os.kill(pid, SIGTERM)` raises when the recorded process is already dead
(`aliveAtSigterm = false`), which jumps to the outer handler BEFORE
`PID_FILE.unlink()` — so the record survives.  When the process is alive,
the probe/SIGKILL pair is guarded by an inner try/except pass, then the
record is unlinked (an unlink failure also lands in the outer handler and
leaves the record in place).  With no record, the pkill fallback runs. -/
def stop (pidFile : Option Nat) (aliveAtSigterm aliveAfterGrace unlinkFails : Bool) : StopResult :=
  match pidFile with
  | none => { pidFileAfter := none, killCalls := [], outcome := StopOutcome.pkillFallback }
  | some pid =>
    if aliveAtSigterm then
      let calls := if aliveAfterGrace then [(pid, 15), (pid, 0), (pid, 9)] else [(pid, 15), (pid, 0)]
      if unlinkFails then
        { pidFileAfter := some pid, killCalls := calls, outcome := StopOutcome.stopError }
      else
        { pidFileAfter := none, killCalls := calls, outcome := StopOutcome.stopped }
    else
      { pidFileAfter := some pid, killCalls := [(pid, 15)], outcome := StopOutcome.stopError }

lemma loop_body_eq (args : List String) (r : SpawnResult) :
    loop_body args r = Except.ok (iter_logs args r) := by
  cases r <;> rfl

lemma monitor_step_not_crashed (args : List String) (logs : List LogEntry)
    (ev : Conf × SpawnResult) :
    monitor_step ⟨args, logs, false⟩ ev = ⟨args, logs ++ iter_logs args ev.2, false⟩ := by
  obtain ⟨c, r⟩ := ev
  cases r <;> rfl

lemma monitor_run_from_crashed (args : List String) (logs : List LogEntry)
    (events : List (Conf × SpawnResult)) :
    (monitor_run_from ⟨args, logs, false⟩ events).crashed = false := by
  induction events generalizing logs with
  | nil => rfl
  | cons e rest ih =>
      rw [monitor_run_from, monitor_step_not_crashed]
      exact ih _

lemma monitor_run_from_args (args : List String) (logs : List LogEntry)
    (events : List (Conf × SpawnResult)) :
    (monitor_run_from ⟨args, logs, false⟩ events).args = args := by
  induction events generalizing logs with
  | nil => rfl
  | cons e rest ih =>
      rw [monitor_run_from, monitor_step_not_crashed]
      exact ih _

lemma starting_args_append (l1 l2 : List LogEntry) :
    starting_args (l1 ++ l2) = starting_args l1 ++ starting_args l2 := by
  simp [starting_args, List.filterMap_append]

lemma starting_args_iter (args : List String) (r : SpawnResult) :
    starting_args (iter_logs args r) = [args] := by
  cases r with
  | spawned pid rc =>
      simp only [iter_logs, handled_logs, classifyExit]
      split <;> rfl
  | spawnError msg => rfl

lemma monitor_run_from_starting (args : List String) (logs : List LogEntry)
    (events : List (Conf × SpawnResult)) :
    starting_args (monitor_run_from ⟨args, logs, false⟩ events).logs
      = starting_args logs ++ List.replicate events.length args := by
  induction events generalizing logs with
  | nil => simp [monitor_run_from]
  | cons e rest ih =>
      rw [monitor_run_from, monitor_step_not_crashed, ih]
      simp [starting_args_append, starting_args_iter, List.replicate_succ, List.append_assoc]

lemma colon_prefix_ne_server (s : String) : ":" ++ s ≠ "server" := by
  obtain ⟨l⟩ := s
  intro h
  have hd : ':' :: l = ['s', 'e', 'r', 'v', 'e', 'r'] := congrArg String.data h
  injection hd with h1 h2
  exact absurd h1 (by decide)

lemma lport_args_no_server (o : Option Int) : "server" ∉ lport_args o := by
  cases o with
  | none => decide
  | some lp =>
      simp only [lport_args]
      split
      · decide
      · intro hm
        simp only [List.mem_cons, List.not_mem_nil, or_false] at hm
        rcases hm with h | h | h | h
        · exact absurd h (by decide)
        · exact absurd h (by decide)
        · exact absurd h (by decide)
        · exact colon_prefix_ne_server (toString lp) h.symm

lemma server_args_no_server (o : Option String) (h : o ≠ some "server") :
    "server" ∉ server_args o := by
  cases o with
  | none => exact List.not_mem_nil _
  | some sv =>
      simp only [server_args]
      split
      · exact List.not_mem_nil _
      · intro hm
        simp only [List.mem_cons, List.not_mem_nil, or_false] at hm
        rcases hm with hv | hv
        · exact absurd hv (by decide)
        · exact h (congrArg some hv.symm)

/-- A server-mode configuration as the setup wizard writes it. -/
def conf_server_ex : Conf := ⟨none, some "123456", some 1, none, none, none, none⟩

/-- A client-mode configuration as the setup wizard writes it. -/
def conf_client_ex : Conf := ⟨some "client", some "123456", some 1, some 4000, some "10.0.0.1", none, none⟩

/-- A client-mode configuration whose endpoint key is absent. -/
def conf_client_noserver : Conf := ⟨some "client", some "123456", some 1, some 4000, none, none, none⟩

/-- A configuration requesting a 500 MB memory limit. -/
def conf_mem500 : Conf := ⟨none, some "123456", some 1, none, none, some 500, none⟩

/-- File-system environment in which every call succeeds and no drop-in
file pre-exists. -/
def env_ok : FsEnv := ⟨false, false, false, false⟩

/-- File-system environment in which writing the drop-in file raises. -/
def env_write_fail : FsEnv := ⟨false, true, false, false⟩

/-- The binary path used by the concrete examples below. -/
def bin_ex : String := "/opt/pingtunnel/bin/pingtunnel"

/-- Two loop cycles: during the second one the configuration store holds a
different (client-mode) record than the one the supervisor started with. -/
def events_two : List (Conf × SpawnResult) :=
  [(conf_server_ex, SpawnResult.spawned 41 0), (conf_client_ex, SpawnResult.spawned 42 0)]

/-- The supervisor state after running the two cycles of `events_two` from
a start with `conf_server_ex`. -/
def run_ex : MonitorState :=
  monitor_run_from ⟨build_args conf_server_ex bin_ex, [LogEntry.monitorStarting], false⟩ events_two

/-- Claim C1: the supervision loop never terminates on its own.  For every
finite sequence of iteration outcomes — normal exits with any code, signal
kills, and spawn exceptions alike — the loop never crashes, it performs
exactly one launch attempt per iteration (one "starting" line per event,
so after each event it launches again), and every single iteration returns
normally through the except handler, logs the event, and ends with the
fixed 3-second backoff sleep. -/
theorem monitor_loop_never_stops (args : List String) (logs : List LogEntry)
    (events : List (Conf × SpawnResult)) :
    (monitor_run_from ⟨args, logs, false⟩ events).crashed = false ∧
    starting_args (monitor_run_from ⟨args, logs, false⟩ events).logs
      = starting_args logs ++ List.replicate events.length args ∧
    ∀ r : SpawnResult, loop_body args r = Except.ok (iter_logs args r) ∧
      LogEntry.sleep 3 ∈ iter_logs args r ∧ handled_logs r ≠ [] := by
  refine ⟨monitor_run_from_crashed args logs events,
          monitor_run_from_starting args logs events, ?_⟩
  intro r
  refine ⟨loop_body_eq args r, ?_, ?_⟩
  · simp [iter_logs]
  · cases r <;> simp [handled_logs]

/-- Claim C2 counterexample: the supervisor started with the server-mode
configuration runs two cycles; during the second cycle the store holds the
client-mode configuration, yet both "starting" lines carry the command
built from the initial configuration — and the two configurations build
different commands.  A supervisor that reloaded the store and rebuilt the
command on every cycle would have launched the client command the second
time. -/
theorem monitor_reload_counterexample :
    monitor_run conf_server_ex env_ok bin_ex events_two = Except.ok run_ex ∧
    starting_args run_ex.logs
      = [build_args conf_server_ex bin_ex, build_args conf_server_ex bin_ex] ∧
    build_args conf_client_ex bin_ex ≠ build_args conf_server_ex bin_ex := by
  refine ⟨rfl, by decide, by decide⟩

/-- Claim C2 amended: the Supervisor loads the Configuration, applies the
resource limit, and builds the command ONCE, before entering the loop;
every later restart cycle reuses that same command vector — the store
contents during later cycles are never reloaded and the limit is never
reapplied.  Formally: whenever the run starts successfully, the state
keeps the initial command and every launch of every cycle uses exactly the
command built from the initially loaded configuration. -/
theorem monitor_builds_command_once (conf : Conf) (env : FsEnv) (bin : String)
    (events : List (Conf × SpawnResult)) (s : MonitorState)
    (h : monitor_run conf env bin events = Except.ok s) :
    s.args = build_args conf bin ∧
    starting_args s.logs = List.replicate events.length (build_args conf bin) := by
  unfold monitor_run monitor_init at h
  cases ha : apply_systemd_mem conf env with
  | error e => rw [ha] at h; cases h
  | ok u =>
      rw [ha] at h
      have hs : monitor_run_from
          ⟨build_args conf bin, [LogEntry.monitorStarting], false⟩ events = s :=
        Except.ok.inj h
      subst hs
      refine ⟨monitor_run_from_args _ _ _, ?_⟩
      rw [monitor_run_from_starting]
      rfl

/-- Witness for C2 amended at the concrete two-cycle run. -/
theorem monitor_builds_command_once_witness :
    run_ex.args = build_args conf_server_ex bin_ex ∧
    starting_args run_ex.logs = List.replicate 2 (build_args conf_server_ex bin_ex) :=
  monitor_builds_command_once conf_server_ex env_ok bin_ex events_two run_ex rfl

/-- Claim C3 counterexample: with the PID record naming supervisor 100,
which is live, a `start` does NOT report "already running" and do nothing
— it spawns a second supervisor (pid 200) and overwrites the record.  The
source `start` (template lines 200-213) contains no read of the PID record
at all before the spawn. -/
theorem start_ignores_pid_record_counterexample :
    start ⟨some 100, [100]⟩ 200 false ≠ (⟨some 100, [100]⟩ : FrontEndState) ∧
    (start ⟨some 100, [100]⟩ 200 false).supervisors = [200, 100] ∧
    (start ⟨some 100, [100]⟩ 200 false).pidFile = some 200 := by
  refine ⟨by decide, rfl, rfl⟩

/-- Claim C3 amended: when not init-managed, `start` never consults the
PID record.  From every front-end state it unconditionally spawns a new
detached Supervisor and overwrites the PID record with the new identifier
(the old record survives only if the write itself raises), so `start`
followed immediately by a second `start` always leaves two Supervisor
processes running. -/
theorem start_unconditionally_spawns (s : FrontEndState) (newPid nextPid : Nat)
    (w : Bool) :
    (start s newPid false).supervisors = newPid :: s.supervisors ∧
    (start s newPid false).pidFile = some newPid ∧
    (start s newPid true).pidFile = s.pidFile ∧
    (start (start s newPid w) nextPid w).supervisors.length = s.supervisors.length + 2 := by
  refine ⟨rfl, rfl, rfl, ?_⟩
  simp [start]

/-- Claim C4 counterexample: with a 500 MB limit configured and the
drop-in write raising, the whole supervisor run aborts with the exception
before any child is launched — the launch does not proceed without the
limit, and no warning line is produced, because the `m > 0` branch of
`apply_systemd_mem` (template lines 149-152) has no try/except and
`monitor_loop` calls it outside its own try (line 164), before the loop. -/
theorem memlimit_failure_fatal_counterexample :
    monitor_run conf_mem500 env_write_fail bin_ex
        [(conf_mem500, SpawnResult.spawned 7 0)] = Except.error "write failed" := rfl

/-- Claim C4 amended: only failures on the REMOVAL side of the limiter are
non-fatal — for every configuration with `memory_mb` at most 0 the
try/except-pass around the unlink makes `apply_systemd_mem` succeed no
matter which file-system calls fail.  But for `memory_mb` strictly
positive, a failure creating or writing the drop-in propagates out of
`apply_systemd_mem` and aborts the supervisor before the loop starts: the
child is never launched and no warning is logged. -/
theorem memlimit_removal_nonfatal_apply_fatal :
    (∀ (conf : Conf) (env : FsEnv), conf.memory_mb.getD 0 ≤ 0 →
        (apply_systemd_mem conf env).isOk = true) ∧
    (∀ (conf : Conf) (env : FsEnv) (bin : String) (events : List (Conf × SpawnResult)),
        0 < conf.memory_mb.getD 0 → env.mkdirFails = false → env.writeFails = true →
        monitor_run conf env bin events = Except.error "write failed") := by
  constructor
  · intro conf env h
    simp only [apply_systemd_mem]
    rw [if_neg (not_lt.mpr h)]
    cases env.memfileExists <;> cases env.unlinkFails <;> rfl
  · intro conf env bin events hm hmk hw
    simp [monitor_run, monitor_init, apply_systemd_mem, hm, hmk, hw]

/-- Witness for C4 amended: the wizard default server configuration has no
limit, so the limiter succeeds even in the all-failing environment; and
the 500 MB configuration with a failing write aborts the run. -/
theorem memlimit_removal_nonfatal_apply_fatal_witness :
    (apply_systemd_mem conf_server_ex ⟨true, true, true, true⟩).isOk = true ∧
    monitor_run conf_mem500 env_write_fail bin_ex [] = Except.error "write failed" :=
  ⟨memlimit_removal_nonfatal_apply_fatal.1 conf_server_ex ⟨true, true, true, true⟩ (by decide),
   memlimit_removal_nonfatal_apply_fatal.2 conf_mem500 env_write_fail bin_ex [] (by decide) rfl rfl⟩

/-- Claim C5 counterexample: with the PID record naming process 100 which
is already dead, `stop` attempts the SIGTERM, the `os.kill` raises, the
outer except handler logs a stop error — and the PID record still exists
afterwards, contradicting the claim that after `stop` returns the record
no longer exists including when the recorded process was already dead. -/
theorem stop_dead_process_keeps_pidfile_counterexample :
    (stop (some 100) false false false).pidFileAfter = some 100 ∧
    (stop (some 100) false false false).outcome = StopOutcome.stopError := by
  refine ⟨rfl, rfl⟩

/-- Claim C5 amended: when not init-managed and a PID record exists,
`stop` sends SIGTERM, waits the one-second grace, probes, sends SIGKILL if
the process is still alive, and removes the record — but only when the
recorded process was alive when the SIGTERM was sent (and the unlink
succeeds).  When the recorded process was already dead, the SIGTERM call
raises, `stop` logs a stop error, and the PID record is left in place.
With no record at all, the pkill fallback runs. -/
theorem stop_behavior (pid : Nat) (g : Bool) :
    stop (some pid) true g false =
      { pidFileAfter := none,
        killCalls := if g then [(pid, 15), (pid, 0), (pid, 9)] else [(pid, 15), (pid, 0)],
        outcome := StopOutcome.stopped } ∧
    stop (some pid) false g false =
      { pidFileAfter := some pid, killCalls := [(pid, 15)],
        outcome := StopOutcome.stopError } ∧
    stop none true g false =
      { pidFileAfter := none, killCalls := [], outcome := StopOutcome.pkillFallback } := by
  cases g <;> exact ⟨rfl, rfl, rfl⟩

/-- Claim C6 counterexample: the client-mode configuration with no
endpoint key is NOT rejected before launch — `build_args` silently builds
a command without any `-s` flag and the supervisor run launches it (the
run enters the loop and performs the launch). -/
theorem client_missing_endpoint_counterexample :
    build_args conf_client_noserver bin_ex =
      ["/opt/pingtunnel/bin/pingtunnel", "-type", "client", "-l", ":4000",
       "-tcp", "1", "-key", "123456", "-noprint", "1", "-nolog", "1"] ∧
    "-s" ∉ build_args conf_client_noserver bin_ex ∧
    (monitor_run conf_client_noserver env_ok bin_ex
        [(conf_client_noserver, SpawnResult.spawned 7 0)]).isOk = true := by
  refine ⟨rfl, by decide, rfl⟩

/-- Claim C6 amended: for every configuration in client mode whose
endpoint is absent (key missing, or present but empty and hence falsy),
`build_args` raises no configuration error: it returns a command vector
that simply omits the `-s` flag, and the child is launched with it. -/
theorem client_missing_endpoint_silent (k : Option String) (tc lp mm : Option Int)
    (b : Option String) (bin : String) :
    build_args ⟨some "client", k, tc, lp, none, mm, b⟩ bin
      = bin :: (lport_args lp ++ ["-tcp", "1", "-key", k.getD "", "-noprint", "1", "-nolog", "1"]) ∧
    build_args ⟨some "client", k, tc, lp, some "", mm, b⟩ bin
      = bin :: (lport_args lp ++ ["-tcp", "1", "-key", k.getD "", "-noprint", "1", "-nolog", "1"]) := by
  have hc : ¬ str_lower ((some "client" : Option String).getD "server") = "server" := by decide
  constructor <;>
  · rw [build_args_client_eq _ _ hc]
    simp [server_args]

/-- Claim C7: termination classification is exact and unambiguous.  A wait
status below zero is logged as a signal kill carrying the signal number
(the negated status), any other status is logged as a normal exit carrying
the exit code, the two log shapes are distinct for all values, and a
successful spawn/wait iteration logs exactly the pid line followed by that
classification. -/
theorem exit_classification_exact :
    (∀ rc : Int, rc < 0 → classifyExit rc = LogEntry.killedBySignal (-rc)) ∧
    (∀ rc : Int, 0 ≤ rc → classifyExit rc = LogEntry.exited rc) ∧
    (∀ s c : Int, LogEntry.killedBySignal s ≠ LogEntry.exited c) ∧
    (∀ (pid : Nat) (rc : Int), handled_logs (SpawnResult.spawned pid rc)
        = [LogEntry.childPid pid, classifyExit rc]) := by
  refine ⟨?_, ?_, ?_, ?_⟩
  · intro rc h
    unfold classifyExit
    rw [if_pos h]
  · intro rc h
    unfold classifyExit
    rw [if_neg (not_lt.mpr h)]
  · intro s c h
    cases h
  · intro pid rc
    rfl

/-- Witness for C7 at a signal kill (SIGKILL, wait status -9) and at a
normal exit with code 0. -/
theorem exit_classification_exact_witness :
    classifyExit (-9) = LogEntry.killedBySignal 9 ∧ classifyExit 0 = LogEntry.exited 0 :=
  ⟨exit_classification_exact.1 (-9) (by decide), exit_classification_exact.2.1 0 (by decide)⟩

/-- Claim C8: mode exclusivity of the command builder.  In server mode the
argument vector contains neither the client endpoint flag `-s`, nor the
client listen flag `-l`, nor the client mode marker `client`; in client
mode it contains no server mode marker `server`.  The hypotheses exclude
the degenerate value collisions in which the configured key, the binary
path, or the configured endpoint value is itself literally equal to one of
those flag tokens (such a token would then appear as a value, not as a
flag chosen by the builder). -/
theorem build_args_mode_exclusive :
    (∀ (conf : Conf) (bin : String),
        str_lower (conf.type.getD "server") = "server" →
        conf.key.getD "" ≠ "-s" → conf.key.getD "" ≠ "-l" → conf.key.getD "" ≠ "client" →
        bin ≠ "-s" → bin ≠ "-l" → bin ≠ "client" →
        "-s" ∉ build_args conf bin ∧ "-l" ∉ build_args conf bin ∧
          "client" ∉ build_args conf bin) ∧
    (∀ (conf : Conf) (bin : String),
        ¬ str_lower (conf.type.getD "server") = "server" →
        conf.key.getD "" ≠ "server" → bin ≠ "server" →
        conf.server ≠ some "server" →
        "server" ∉ build_args conf bin) := by
  constructor
  · intro conf bin h hk1 hk2 hk3 hb1 hb2 hb3
    rw [build_args_server_eq conf bin h]
    refine ⟨?_, ?_, ?_⟩
    · simp only [List.mem_cons, List.not_mem_nil, or_false, not_or]
      refine ⟨fun hv => hb1 hv.symm, by decide, by decide, by decide, by decide, by decide,
              fun hv => hk1 hv.symm, by decide, by decide, by decide, by decide⟩
    · simp only [List.mem_cons, List.not_mem_nil, or_false, not_or]
      refine ⟨fun hv => hb2 hv.symm, by decide, by decide, by decide, by decide, by decide,
              fun hv => hk2 hv.symm, by decide, by decide, by decide, by decide⟩
    · simp only [List.mem_cons, List.not_mem_nil, or_false, not_or]
      refine ⟨fun hv => hb3 hv.symm, by decide, by decide, by decide, by decide, by decide,
              fun hv => hk3 hv.symm, by decide, by decide, by decide, by decide⟩
  · intro conf bin h hk hb hsv
    rw [build_args_client_eq conf bin h]
    intro hm
    rcases List.mem_cons.mp hm with hv | hm2
    · exact hb hv.symm
    rcases List.mem_append.mp hm2 with hv | hm3
    · exact lport_args_no_server conf.l_port hv
    rcases List.mem_append.mp hm3 with hv | hm4
    · exact server_args_no_server conf.server hsv hv
    simp only [List.mem_cons, List.not_mem_nil, or_false] at hm4
    rcases hm4 with hv | hv | hv | hv | hv | hv | hv | hv
    · exact absurd hv (by decide)
    · exact absurd hv (by decide)
    · exact absurd hv (by decide)
    · exact hk hv.symm
    · exact absurd hv (by decide)
    · exact absurd hv (by decide)
    · exact absurd hv (by decide)
    · exact absurd hv (by decide)

/-- Witness for C8 at the wizard server and client configurations. -/
theorem build_args_mode_exclusive_witness :
    ("-s" ∉ build_args conf_server_ex bin_ex ∧ "-l" ∉ build_args conf_server_ex bin_ex ∧
      "client" ∉ build_args conf_server_ex bin_ex) ∧
    "server" ∉ build_args conf_client_ex bin_ex :=
  ⟨build_args_mode_exclusive.1 conf_server_ex bin_ex (by decide) (by decide) (by decide)
      (by decide) (by decide) (by decide) (by decide),
   build_args_mode_exclusive.2 conf_client_ex bin_ex (by decide) (by decide) (by decide)
      (by decide)⟩

/-- Claim C9: the argument vector is independent of the `tcp` field.  Two
configurations that agree on every field except `tcp` build identical
vectors (the source reads `tcp` into a local string it never uses), and
every built vector contains the adjacent pair `-tcp 1` with the literal
value 1, in both modes. -/
theorem build_args_tcp_independent :
    (∀ (ty k : Option String) (tc1 tc2 lp : Option Int) (sv : Option String)
        (mm : Option Int) (b : Option String) (bin : String),
        build_args ⟨ty, k, tc1, lp, sv, mm, b⟩ bin
          = build_args ⟨ty, k, tc2, lp, sv, mm, b⟩ bin) ∧
    (∀ (conf : Conf) (bin : String), ∃ pre post,
        build_args conf bin = pre ++ ["-tcp", "1"] ++ post) := by
  constructor
  · intro ty k tc1 tc2 lp sv mm b bin
    rfl
  · intro conf bin
    by_cases h : str_lower (conf.type.getD "server") = "server"
    · refine ⟨[bin, "-type", "server"],
        ["-key", conf.key.getD "", "-noprint", "1", "-nolog", "1"], ?_⟩
      rw [build_args_server_eq conf bin h]
      rfl
    · refine ⟨bin :: (lport_args conf.l_port ++ server_args conf.server),
        ["-key", conf.key.getD "", "-noprint", "1", "-nolog", "1"], ?_⟩
      rw [build_args_client_eq conf bin h]
      simp [List.append_assoc]

/-- Claim C10: the command builder rejects no mode value.  An absent
`type` key defaults to server mode; any value whose lowercasing is
"server" selects server mode; and EVERY other string value — arbitrary
unknown strings included — selects client mode (the vector starts with the
client marker) instead of raising a configuration error. -/
theorem build_args_mode_total :
    (∀ (k : Option String) (tc lp : Option Int) (sv : Option String) (mm : Option Int)
        (b : Option String) (bin : String),
        build_args ⟨none, k, tc, lp, sv, mm, b⟩ bin
          = [bin, "-type", "server", "-tcp", "1", "-key", k.getD "",
             "-noprint", "1", "-nolog", "1"]) ∧
    (∀ ty : String, str_lower ty = "server" →
        ∀ (k : Option String) (tc lp : Option Int) (sv : Option String) (mm : Option Int)
          (b : Option String) (bin : String),
        build_args ⟨some ty, k, tc, lp, sv, mm, b⟩ bin
          = [bin, "-type", "server", "-tcp", "1", "-key", k.getD "",
             "-noprint", "1", "-nolog", "1"]) ∧
    (∀ ty : String, str_lower ty ≠ "server" →
        ∀ (k : Option String) (tc lp : Option Int) (sv : Option String) (mm : Option Int)
          (b : Option String) (bin : String),
        (build_args ⟨some ty, k, tc, lp, sv, mm, b⟩ bin).take 3
          = [bin, "-type", "client"]) := by
  refine ⟨?_, ?_, ?_⟩
  · intro k tc lp sv mm b bin
    exact build_args_server_eq ⟨none, k, tc, lp, sv, mm, b⟩ bin
      (show str_lower ((none : Option String).getD "server") = "server" by decide)
  · intro ty hty k tc lp sv mm b bin
    exact build_args_server_eq ⟨some ty, k, tc, lp, sv, mm, b⟩ bin hty
  · intro ty hty k tc lp sv mm b bin
    rw [build_args_client_eq ⟨some ty, k, tc, lp, sv, mm, b⟩ bin hty]
    rcases lp with _ | v
    · rfl
    · by_cases hv : v = 0
      · simp [lport_args, hv]
      · simp [lport_args, hv]

/-- Witness for C10: the mode value SERVER (case-insensitively server)
selects the server vector, and the unknown mode value tunnel selects the
client vector shape. -/
theorem build_args_mode_total_witness :
    build_args ⟨some "SERVER", some "123456", some 1, none, none, none, none⟩ bin_ex
      = [bin_ex, "-type", "server", "-tcp", "1", "-key", "123456",
         "-noprint", "1", "-nolog", "1"] ∧
    (build_args ⟨some "tunnel", some "123456", some 1, none, none, none, none⟩ bin_ex).take 3
      = [bin_ex, "-type", "client"] :=
  ⟨build_args_mode_total.2.1 "SERVER" (by decide) (some "123456") (some 1) none none none none
      bin_ex,
   build_args_mode_total.2.2 "tunnel" (by decide) (some "123456") (some 1) none none none none
      bin_ex⟩
